import Mathlib

/-!
# The Deviare plugin callbacks of `DeviarePlugin/DeviarePlugin.cpp`

A shallow embedding of the two stateful callbacks of the plugin, `OnHookAdded`
and `OnFunctionCall`.

* The host objects handed to the callbacks (`INktHookInfo`,
  `INktHookCallInfoPlugin` and the objects reachable from them) are records of
  replies.  A reply is the pair of the `HRESULT` the call comes back with and
  the value its out-argument holds when it comes back.  Objects obtained from
  the host (`INktProcess*`, `INktParamsEnum*`, `INktParam*`) are identified by
  their address.
* The three file-scope variables `pDevice`, `pDXGIFactory` and `gGamePID` are
  the record `Globals`, passed in and handed back.
* Every call that leaves the translation unit is appended to a trace of
  `Event`s, in program order: the accessor calls on the host and the calls of
  the hook installers `HookPresent`, `HookCreateSwapChain` and
  `HookCreateSwapChainForHwnd`.
* `throw std::exception(msg)` is the outcome `raised msg`; `return hr` is the
  outcome `returned hr`.
* The text formatted by `sprintf_s` is not modelled, only the call of
  `OutputDebugStringA`; the reference counting of `CComPtr` is not modelled.
* The preprocessor symbol `_DEBUG` is the parameter `debugBuild`.
-/

set_option linter.unusedVariables false

namespace DeviarePlugin

/-- Status of a COM call (`HRESULT`, a signed 32-bit value). -/
abbrev HRESULT := Int

/-- The type `VARIANT_BOOL`: zero is false, every other value is true. -/
abbrev VARIANT_BOOL := Int

/-- An address: the value of a pointer, `0` for `nullptr`. -/
abbrev Ptr := Int

/-- Modelled from the spec: the success status `S_OK` of the platform headers,
which are not under src/. -/
def S_OK : HRESULT := 0

/-- Modelled from the spec: the macro `FAILED` of the platform headers, which
are not under src/; a status is a failure exactly when it is negative. -/
def FAILED (hr : HRESULT) : Bool := decide (hr < 0)

/-- Modelled from the spec: the constant `D3D11_CREATE_DEVICE_DEBUG` of
`d3d11.h`, which is not under src/; the debug-device bit, `0x2`. -/
def D3D11_CREATE_DEVICE_DEBUG : Nat := 0x2

/-- Comparison of two wide strings, as the C library function: negative, zero
or positive as the first string is below, equal to or above the second. -/
def wcscmpAux : List Char → List Char → Int
  | [], [] => 0
  | [], _ :: _ => -1
  | _ :: _, [] => 1
  | a :: as, b :: bs =>
    if a < b then -1 else if b < a then 1 else wcscmpAux as bs

/-- The call `wcscmp(s, t)` on two NUL-terminated wide strings, each given by
its characters before the terminator. -/
def wcscmp (s t : String) : Int := wcscmpAux s.data t.data

/-- The file-scope variables of the plugin. -/
structure Globals where
  /-- The variable `ID3D11Device* pDevice`. -/
  pDevice : Ptr
  /-- The variable `IDXGIFactory* pDXGIFactory`. -/
  pDXGIFactory : Ptr
  /-- The variable `long gGamePID`. -/
  gGamePID : Int
deriving DecidableEq, Repr

/-- The state of the globals when the plugin is loaded. -/
def Globals.initial : Globals := ⟨0, 0, 0⟩

/-- The hook-info object `INktHookInfo *lpHookInfo` and the process object
reachable from it. -/
structure INktHookInfo where
  /-- Reply of `get_FunctionName(&name)`. -/
  get_FunctionName : HRESULT × String
  /-- Reply of `get_Address(&address)`. -/
  get_Address : HRESULT × Int
  /-- Reply of `CurrentProcess(&pProc)`. -/
  CurrentProcess : HRESULT × Ptr
  /-- Reply of `pProc->get_Id(&id)` on the process object at the address. -/
  get_Id : Ptr → HRESULT × Int

/-- The call-info object `INktHookCallInfoPlugin *lpHookCallInfoPlugin` and the
enumerator and parameter objects reachable from it. -/
structure INktHookCallInfoPlugin where
  /-- Reply of `get_IsPreCall(&isPreCall)`. -/
  get_IsPreCall : HRESULT × VARIANT_BOOL
  /-- Reply of `Params(&paramsEnum)`. -/
  Params : HRESULT × Ptr
  /-- Reply of `get_Count(&paramCount)` on the enumerator at the address. -/
  get_Count : Ptr → HRESULT × Int
  /-- Reply of `GetAt(index, &param)` on the enumerator at the address. -/
  GetAt : Ptr → Nat → HRESULT × Ptr
  /-- Reply of `get_IsNullPointer(&b)` on the parameter at the address. -/
  get_IsNullPointer : Ptr → HRESULT × VARIANT_BOOL
  /-- Reply of `Evaluate(&param)` on the parameter at the address. -/
  Evaluate : Ptr → HRESULT × Ptr
  /-- Reply of `get_PointerVal(&v)` on the parameter at the address. -/
  get_PointerVal : Ptr → HRESULT × Int
  /-- Reply of `get_ULongVal(&v)` on the parameter at the address. -/
  get_ULongVal : Ptr → HRESULT × Nat
  /-- Status of `put_ULongVal(v)` on the parameter at the address. -/
  put_ULongVal : Ptr → Nat → HRESULT

/-- The calls a callback makes outside the translation unit. -/
inductive Event where
  | get_FunctionName
  | get_Address
  | OutputDebugStringA
  | CurrentProcess
  | get_Id (pProc : Ptr)
  | Params
  | get_Count (paramsEnum : Ptr)
  | get_IsPreCall
  | GetAt (paramsEnum : Ptr) (index : Nat)
  | get_IsNullPointer (param : Ptr)
  | Evaluate (param : Ptr)
  | get_PointerVal (param : Ptr)
  | get_ULongVal (param : Ptr)
  | put_ULongVal (param : Ptr) (value : Nat)
  | HookPresent (pDevice pSwapChain : Ptr)
  | HookCreateSwapChain (pDXGIFactory : Ptr)
  | HookCreateSwapChainForHwnd (pDXGIFactory : Ptr)
deriving DecidableEq, Repr

/-- The event is a call of one of the three hook-installation routines. -/
def Event.isHook : Event → Bool
  | .HookPresent _ _ => true
  | .HookCreateSwapChain _ => true
  | .HookCreateSwapChainForHwnd _ => true
  | _ => false

/-- The event reads or writes a parameter slot: `GetAt`, `get_IsNullPointer`,
`Evaluate` or one of the value accesses. -/
def Event.isSlotAccess : Event → Bool
  | .GetAt _ _ => true
  | .get_IsNullPointer _ => true
  | .Evaluate _ => true
  | .get_PointerVal _ => true
  | .get_ULongVal _ => true
  | .put_ULongVal _ _ => true
  | _ => false

/-- How a callback ends. -/
inductive Outcome where
  | returned (hr : HRESULT)
  | raised (what : String)
deriving DecidableEq, Repr

/-- What a callback leaves behind: how it ended, the calls it made, in order,
and the globals. -/
structure Result where
  outcome : Outcome
  trace : List Event
  shim : Globals
deriving DecidableEq, Repr

/-- The callback `OnHookAdded`. -/
def OnHookAdded (lpHookInfo : INktHookInfo) (dwChainIndex : Nat)
    (szParametersW : String) (shim : Globals) : Result :=
  let hr := lpHookInfo.get_FunctionName.1
  if FAILED hr then
    ⟨.raised "Failed GetFunctionName", [.get_FunctionName], shim⟩
  else
    let hr := lpHookInfo.CurrentProcess.1
    let pProc := lpHookInfo.CurrentProcess.2
    if FAILED hr then
      ⟨.raised "Failed CurrentProcess",
        [.get_FunctionName, .get_Address, .OutputDebugStringA, .CurrentProcess], shim⟩
    else
      let hr := (lpHookInfo.get_Id pProc).1
      let shim := { shim with gGamePID := (lpHookInfo.get_Id pProc).2 }
      if FAILED hr then
        ⟨.raised "Failed get_Id",
          [.get_FunctionName, .get_Address, .OutputDebugStringA, .CurrentProcess,
            .get_Id pProc], shim⟩
      else
        ⟨.returned S_OK,
          [.get_FunctionName, .get_Address, .OutputDebugStringA, .CurrentProcess,
            .get_Id pProc], shim⟩

/-- The variables live across the statements of `OnFunctionCall`: its locals
that are read after the statement that writes them, the globals and the trace
so far. -/
structure Frame where
  /-- The local `HRESULT hr`. -/
  hr : HRESULT
  /-- The local `IDXGISwapChain* pSwapChain`. -/
  pSwapChain : Ptr
  /-- The local `ID3D11Device* pDevice`, which hides the global of that name. -/
  pDevice : Ptr
  /-- The local `CComBSTR name`. -/
  name : String
  /-- The local `CComPtr<INktParamsEnum> paramsEnum`. -/
  paramsEnum : Ptr
  /-- The local `CComPtr<INktParam> param`. -/
  param : Ptr
  shim : Globals
  trace : List Event

/-- Append a call to the trace. -/
def Frame.log (f : Frame) (e : Event) : Frame :=
  { f with trace := f.trace ++ [e] }

/-- Where control is after a block of statements: at the statement after the
block, or out of the function by `return` or by `throw`. -/
inductive Flow where
  | running (f : Frame)
  | returned (hr : HRESULT) (f : Frame)
  | thrown (what : String) (f : Frame)

/-- Sequencing: the rest of the function runs only when the block before it
fell through. -/
def Flow.andThen (x : Flow) (k : Frame → Flow) : Flow :=
  match x with
  | .running f => k f
  | .returned hr f => .returned hr f
  | .thrown what f => .thrown what f

/-- The result of the function once control has left it; falling off the last
block reaches the final `return S_OK`. -/
def Flow.result : Flow → Result
  | .running f => ⟨.returned S_OK, f.trace, f.shim⟩
  | .returned hr f => ⟨.returned hr, f.trace, f.shim⟩
  | .thrown what f => ⟨.raised what, f.trace, f.shim⟩

/-- The statements under `#ifdef _DEBUG` in the two pre-call branches, up to
the `return S_OK` that follows them: read the flags in slot 3, set the debug
bit, write them back. -/
def preCallBranch (debugBuild : Bool) (ci : INktHookCallInfoPlugin) (f : Frame) : Flow :=
  if debugBuild then
    let r := ci.GetAt f.paramsEnum 3
    let f := { f.log (.GetAt f.paramsEnum 3) with hr := r.1, param := r.2 }
    if FAILED f.hr then .thrown "Failed Nektra paramsEnum->GetAt(3)" f
    else
      let r := ci.get_ULongVal f.param
      let f := { f.log (.get_ULongVal f.param) with hr := r.1 }
      let flags := r.2 % 2 ^ 32
      if FAILED f.hr then .thrown "Failed Nektra paramsEnum->get_ULongVal()" f
      else
        let flags := (flags ||| D3D11_CREATE_DEVICE_DEBUG) % 2 ^ 32
        let f := { f.log (.put_ULongVal f.param flags) with hr := ci.put_ULongVal f.param flags }
        if FAILED f.hr then .thrown "Failed Nektra paramsEnum->put_ULongVal()" f
        else .returned S_OK f
  else .returned S_OK f

/-- The block `if (wcscmp(name, L"D3D11.DLL!D3D11CreateDeviceAndSwapChain") == 0)`. -/
def blockCreateDeviceAndSwapChain (debugBuild : Bool) (ci : INktHookCallInfoPlugin)
    (f : Frame) : Flow :=
  if wcscmp f.name "D3D11.DLL!D3D11CreateDeviceAndSwapChain" = 0 then
    let isPreCall := ci.get_IsPreCall.2
    let f := f.log .get_IsPreCall
    if FAILED f.hr then .thrown "Failed Nektra get_IsPreCall" f
    else if isPreCall ≠ 0 then preCallBranch debugBuild ci f
    else
      let r := ci.GetAt f.paramsEnum 8
      let f := { f.log (.GetAt f.paramsEnum 8) with hr := r.1, param := r.2 }
      if FAILED f.hr then .thrown "Failed Nektra paramsEnum->GetAt(8)" f
      else
        let r := ci.get_IsNullPointer f.param
        let f := { f.log (.get_IsNullPointer f.param) with hr := r.1 }
        let notNull := r.2
        if FAILED f.hr then .thrown "Failed Nektra param->get_IsNullPointer" f
        else
          Flow.andThen (if notNull ≠ 0 then
            let r := ci.Evaluate f.param
            let f := { f.log (.Evaluate f.param) with hr := r.1, param := r.2 }
            if FAILED f.hr then .thrown "Failed Nektra param->Evaluate" f
            else
              let r := ci.get_PointerVal f.param
              let f := { f.log (.get_PointerVal f.param) with hr := r.1 }
              let pointeraddress := r.2
              if FAILED f.hr then .thrown "Failed Nektra param->get_PointerVal" f
              else .running { f with pSwapChain := pointeraddress }
          else .running f) fun f =>
          let r := ci.GetAt f.paramsEnum 9
          let f := { f.log (.GetAt f.paramsEnum 9) with hr := r.1, param := r.2 }
          if FAILED f.hr then .thrown "Failed Nektra paramsEnum->GetAt(9)" f
          else
            let r := ci.get_IsNullPointer f.param
            let f := { f.log (.get_IsNullPointer f.param) with hr := r.1 }
            let notNull := r.2
            if FAILED f.hr then .thrown "Failed Nektra param->get_IsNullPointer" f
            else
              Flow.andThen (if notNull ≠ 0 then
                let r := ci.Evaluate f.param
                let f := { f.log (.Evaluate f.param) with hr := r.1, param := r.2 }
                if FAILED f.hr then .thrown "Failed Nektra param->Evaluate" f
                else
                  let r := ci.get_PointerVal f.param
                  let f := { f.log (.get_PointerVal f.param) with hr := r.1 }
                  let pointeraddress := r.2
                  if FAILED f.hr then .thrown "Failed Nektra param->get_PointerVal" f
                  else .running { f with pDevice := pointeraddress }
              else .running f) fun f =>
              .running (f.log (.HookPresent f.pDevice f.pSwapChain))
  else .running f

/-- The block `if (wcscmp(name, L"D3D11.DLL!D3D11CreateDevice") == 0)`. -/
def blockCreateDevice (debugBuild : Bool) (ci : INktHookCallInfoPlugin) (f : Frame) : Flow :=
  if wcscmp f.name "D3D11.DLL!D3D11CreateDevice" = 0 then
    let isPreCall := ci.get_IsPreCall.2
    let f := f.log .get_IsPreCall
    if FAILED f.hr then .thrown "Failed Nektra get_IsPreCall" f
    else if isPreCall ≠ 0 then preCallBranch debugBuild ci f
    else
      let r := ci.GetAt f.paramsEnum 7
      let f := { f.log (.GetAt f.paramsEnum 7) with hr := r.1, param := r.2 }
      if FAILED f.hr then .thrown "Failed Nektra paramsEnum->GetAt(7)" f
      else
        let r := ci.get_IsNullPointer f.param
        let f := { f.log (.get_IsNullPointer f.param) with hr := r.1 }
        let notNull := r.2
        if FAILED f.hr then .thrown "Failed Nektra param->get_IsNullPointer" f
        else if notNull ≠ 0 then
          let r := ci.Evaluate f.param
          let f := { f.log (.Evaluate f.param) with hr := r.1, param := r.2 }
          if FAILED f.hr then .thrown "Failed Nektra param->Evaluate" f
          else
            let r := ci.get_PointerVal f.param
            let f := { f.log (.get_PointerVal f.param) with hr := r.1 }
            let pointeraddress := r.2
            if FAILED f.hr then .thrown "Failed Nektra param->get_PointerVal" f
            else .running { f with pDevice := pointeraddress }
        else .running f
  else .running f

/-- The block `if (wcscmp(name, L"DXGI.DLL!CreateDXGIFactory") == 0)`. -/
def blockCreateDXGIFactory (ci : INktHookCallInfoPlugin) (f : Frame) : Flow :=
  if wcscmp f.name "DXGI.DLL!CreateDXGIFactory" = 0 then
    let r := ci.GetAt f.paramsEnum 1
    let f := { f.log (.GetAt f.paramsEnum 1) with hr := r.1, param := r.2 }
    if FAILED f.hr then .thrown "Failed Nektra paramsEnum->GetAt(1)" f
    else
      let r := ci.Evaluate f.param
      let f := { f.log (.Evaluate f.param) with hr := r.1, param := r.2 }
      if FAILED f.hr then .thrown "Failed Nektra param->Evaluate" f
      else
        let r := ci.get_PointerVal f.param
        let f := { f.log (.get_PointerVal f.param) with hr := r.1 }
        let pointeraddress := r.2
        if FAILED f.hr then .thrown "Failed Nektra param->get_PointerVal" f
        else
          let f := { f with shim := { f.shim with pDXGIFactory := pointeraddress } }
          let f := f.log (.HookCreateSwapChain f.shim.pDXGIFactory)
          let f := f.log (.HookCreateSwapChainForHwnd f.shim.pDXGIFactory)
          .running f
  else .running f

/-- The statements of `OnFunctionCall` before the three blocks: fetch the name
and the address, log, fetch the parameter enumerator and its count. -/
def prologue (lpHookInfo : INktHookInfo) (ci : INktHookCallInfoPlugin) (shim : Globals) :
    Flow :=
  let f : Frame :=
    { hr := lpHookInfo.get_FunctionName.1, pSwapChain := 0, pDevice := 0,
      name := lpHookInfo.get_FunctionName.2, paramsEnum := 0, param := 0,
      shim := shim, trace := [.get_FunctionName] }
  if FAILED f.hr then .thrown "Failed GetFunctionName" f
  else
    let f := (f.log .get_Address).log .OutputDebugStringA
    let f := { f.log .Params with hr := ci.Params.1, paramsEnum := ci.Params.2 }
    if FAILED f.hr then .thrown "Failed Nektra lpHookCallInfoPlugin->Params" f
    else
      let f := { f.log (.get_Count f.paramsEnum) with hr := (ci.get_Count f.paramsEnum).1 }
      if FAILED f.hr then .thrown "Failed Nektra paramsEnum->get_Count" f
      else .running f

/-- The callback `OnFunctionCall`. -/
def OnFunctionCall (debugBuild : Bool) (lpHookInfo : INktHookInfo) (dwChainIndex : Nat)
    (lpHookCallInfoPlugin : INktHookCallInfoPlugin) (shim : Globals) : Result :=
  ((((prologue lpHookInfo lpHookCallInfoPlugin shim).andThen
    (blockCreateDeviceAndSwapChain debugBuild lpHookCallInfoPlugin)).andThen
    (blockCreateDevice debugBuild lpHookCallInfoPlugin)).andThen
    (blockCreateDXGIFactory lpHookCallInfoPlugin)).result

/-- A flow meets a postcondition given by cases: `T` for the frame of a throw,
`R` for the frame control goes on with, `D` for the frame of a `return`. -/
def Flow.Satisfies (T R D : Frame → Prop) : Flow → Prop
  | .thrown _ f => T f
  | .running f => R f
  | .returned _ f => D f

/-- The hook-installer calls of a trace, in order. -/
def hookCalls (trace : List Event) : List Event := trace.filter Event.isHook

/-- No hook installer has been called and the globals are as they were at
entry to the callback. -/
def Frame.Clean (shim : Globals) (f : Frame) : Prop :=
  hookCalls f.trace = [] ∧ f.shim = shim

/-- The values written back through `put_ULongVal` in a trace, each with the
parameter object it is written to, in order. -/
def writeBacks (trace : List Event) : List (Ptr × Nat) :=
  trace.filterMap fun e =>
    match e with
    | .put_ULongVal p v => some (p, v)
    | _ => none

/-- The parameter object the enumerator of the call info hands out for a slot. -/
def INktHookCallInfoPlugin.slot (ci : INktHookCallInfoPlugin) (index : Nat) : Ptr :=
  (ci.GetAt ci.Params.2 index).2

/-- The resolved value of a slot: the pointer value of the parameter that
`Evaluate` yields for the slot. -/
def INktHookCallInfoPlugin.resolved (ci : INktHookCallInfoPlugin) (index : Nat) : Ptr :=
  (ci.get_PointerVal (ci.Evaluate (ci.slot index)).2).2

/-- The status the host answers an accessor call with, for the calls whose
status the callbacks test with `FAILED`: every accessor call but `get_Address`
and `get_IsPreCall`. -/
def checkedStatus (hi : INktHookInfo) (ci : INktHookCallInfoPlugin) : Event → Option HRESULT
  | .get_FunctionName => some hi.get_FunctionName.1
  | .CurrentProcess => some hi.CurrentProcess.1
  | .get_Id p => some (hi.get_Id p).1
  | .Params => some ci.Params.1
  | .get_Count p => some (ci.get_Count p).1
  | .GetAt p i => some (ci.GetAt p i).1
  | .get_IsNullPointer p => some (ci.get_IsNullPointer p).1
  | .Evaluate p => some (ci.Evaluate p).1
  | .get_PointerVal p => some (ci.get_PointerVal p).1
  | .get_ULongVal p => some (ci.get_ULongVal p).1
  | .put_ULongVal p v => some (ci.put_ULongVal p v)
  | _ => none

/-- The event is an accessor call with a tested status that the host answers
with a failure status. -/
def failsChecked (hi : INktHookInfo) (ci : INktHookCallInfoPlugin) (e : Event) : Bool :=
  match checkedStatus hi ci e with
  | some hr => FAILED hr
  | none => false

/-- None of the calls is a failed one among those with a tested status. -/
@[irreducible]
def NoFail (hi : INktHookInfo) (ci : INktHookCallInfoPlugin) (trace : List Event) : Prop :=
  ∀ e ∈ trace, failsChecked hi ci e = false

/-- No call follows a failed one among those with a tested status: every call
but the last one is answered with success. -/
@[irreducible]
def StopsAtFailure (hi : INktHookInfo) (ci : INktHookCallInfoPlugin) (trace : List Event) :
    Prop :=
  NoFail hi ci trace.dropLast

/-- The globals of the frame are those of `shim`, but for the factory handle
when the function name is that of `CreateDXGIFactory`. -/
def Frame.Keeps (shim : Globals) (name : String) (f : Frame) : Prop :=
  f.name = name ∧ f.shim.pDevice = shim.pDevice ∧ f.shim.gGamePID = shim.gGamePID ∧
    (name ≠ "DXGI.DLL!CreateDXGIFactory" → f.shim = shim)

/-- Every accessor call `OnHookAdded` tests succeeds on the hook info, and the
process it names reports the id `P`. -/
def INktHookInfo.reports (hi : INktHookInfo) (P : Int) : Prop :=
  FAILED hi.get_FunctionName.1 = false ∧ FAILED hi.CurrentProcess.1 = false ∧
    FAILED (hi.get_Id hi.CurrentProcess.2).1 = false ∧ (hi.get_Id hi.CurrentProcess.2).2 = P

/-- The failure status `E_FAIL` of the platform headers, `0x80004005`. -/
def E_FAIL : HRESULT := -2147467259

/-- A call-info object on which every call succeeds: slot `i` of the
enumerator is the parameter at address `100 + i`, reported null exactly when
`isNull i`, evaluating to the parameter at `1000 + i` whose pointer value is
`16 * (1000 + i)`; every slot reads as the flags value `flags`. -/
def sampleCallInfo (isPreCall : VARIANT_BOOL) (isNull : Nat → Bool) (flags : Nat) :
    INktHookCallInfoPlugin where
  get_IsPreCall := (0, isPreCall)
  Params := (0, 50)
  get_Count := fun _ => (0, 12)
  GetAt := fun _ i => (0, 100 + i)
  get_IsNullPointer := fun p => (0, if isNull (p - 100).toNat then -1 else 0)
  Evaluate := fun p => (0, p + 900)
  get_PointerVal := fun p => (0, 16 * p)
  get_ULongVal := fun _ => (0, flags)
  put_ULongVal := fun _ _ => 0

/-- A hook-info object on which every call succeeds, for the function `name`
in the process with id `pid`. -/
def sampleHookInfo (name : String) (pid : Int) : INktHookInfo where
  get_FunctionName := (0, name)
  get_Address := (0, 0x7FF000)
  CurrentProcess := (0, 60)
  get_Id := fun _ => (0, pid)

/-- The sample call info of a post-call observation with every slot reported
null, except that `Evaluate` fails on every parameter. -/
def evaluateFailsCallInfo : INktHookCallInfoPlugin :=
  { sampleCallInfo 0 (fun _ => true) 0 with Evaluate := fun _ => (E_FAIL, 0) }

/-- The sample hook info for the function `name`, except that `get_Address`
fails. -/
def addressFailsHookInfo (name : String) : INktHookInfo :=
  { sampleHookInfo name 7 with get_Address := (E_FAIL, 0) }


/-! ## Wide-string comparison -/

theorem wcscmpAux_eq_zero_iff (s t : List Char) : wcscmpAux s t = 0 ↔ s = t := by
  induction s generalizing t with
  | nil => cases t <;> simp [wcscmpAux]
  | cons a as ih =>
    cases t with
    | nil => simp [wcscmpAux]
    | cons b bs =>
      rcases lt_trichotomy a b with h | h | h
      · simp [wcscmpAux, h, ne_of_lt h]
      · subst h
        simp [wcscmpAux, ih]
      · simp [wcscmpAux, h, not_lt_of_gt h, ne_of_gt h]

theorem wcscmp_eq_zero_iff (s t : String) : wcscmp s t = 0 ↔ s = t := by
  rw [wcscmp, wcscmpAux_eq_zero_iff]
  constructor
  · intro h
    exact String.ext h
  · intro h
    rw [h]

/-! ## Control flow -/

@[simp]
theorem Flow.andThen_running (f : Frame) (k : Frame → Flow) :
    (Flow.running f).andThen k = k f := rfl

@[simp]
theorem Flow.andThen_returned (hr : HRESULT) (f : Frame) (k : Frame → Flow) :
    (Flow.returned hr f).andThen k = .returned hr f := rfl

@[simp]
theorem Flow.andThen_thrown (what : String) (f : Frame) (k : Frame → Flow) :
    (Flow.thrown what f).andThen k = .thrown what f := rfl

theorem Flow.andThen_ite (c : Prop) [Decidable c] (a b : Flow) (k : Frame → Flow) :
    (if c then a else b).andThen k = if c then a.andThen k else b.andThen k := by
  split <;> rfl

/-- Sequencing rule: the postcondition of the first block is the precondition
of the second. -/
theorem Flow.Satisfies.andThen {T R D R' : Frame → Prop} {x : Flow} {k : Frame → Flow}
    (hx : x.Satisfies T R D) (hk : ∀ f, R f → (k f).Satisfies T R' D) :
    (x.andThen k).Satisfies T R' D := by
  cases x with
  | running f => exact hk f hx
  | returned hr f => exact hx
  | thrown what f => exact hx

/-- Weakening of a postcondition. -/
theorem Flow.Satisfies.mono {T R D T' R' D' : Frame → Prop} {x : Flow}
    (hx : x.Satisfies T R D) (hT : ∀ f, T f → T' f) (hR : ∀ f, R f → R' f)
    (hD : ∀ f, D f → D' f) : x.Satisfies T' R' D' := by
  cases x with
  | running f => exact hR f hx
  | returned hr f => exact hD f hx
  | thrown what f => exact hT f hx

/-- A block whose name test fails is skipped. -/
theorem blockCreateDeviceAndSwapChain_skip (debugBuild : Bool) (ci : INktHookCallInfoPlugin)
    (f : Frame) (h : f.name ≠ "D3D11.DLL!D3D11CreateDeviceAndSwapChain") :
    blockCreateDeviceAndSwapChain debugBuild ci f = .running f := by
  simp [blockCreateDeviceAndSwapChain, wcscmp_eq_zero_iff, h]

theorem blockCreateDevice_skip (debugBuild : Bool) (ci : INktHookCallInfoPlugin)
    (f : Frame) (h : f.name ≠ "D3D11.DLL!D3D11CreateDevice") :
    blockCreateDevice debugBuild ci f = .running f := by
  simp [blockCreateDevice, wcscmp_eq_zero_iff, h]

theorem blockCreateDXGIFactory_skip (ci : INktHookCallInfoPlugin)
    (f : Frame) (h : f.name ≠ "DXGI.DLL!CreateDXGIFactory") :
    blockCreateDXGIFactory ci f = .running f := by
  simp [blockCreateDXGIFactory, wcscmp_eq_zero_iff, h]


theorem Flow.satisfies_ite (T R D : Frame → Prop) (c : Prop) [Decidable c] (a b : Flow) :
    (if c then a else b).Satisfies T R D ↔ (c → a.Satisfies T R D) ∧ (¬c → b.Satisfies T R D) := by
  split <;> simp [*]

@[simp]
theorem Flow.satisfies_thrown (T R D : Frame → Prop) (what : String) (f : Frame) :
    (Flow.thrown what f).Satisfies T R D ↔ T f := Iff.rfl

@[simp]
theorem Flow.satisfies_running (T R D : Frame → Prop) (f : Frame) :
    (Flow.running f).Satisfies T R D ↔ R f := Iff.rfl

@[simp]
theorem Flow.satisfies_returned (T R D : Frame → Prop) (hr : HRESULT) (f : Frame) :
    (Flow.returned hr f).Satisfies T R D ↔ D f := Iff.rfl

/-! ## Atomicity: a throw comes before any hook call and any write to a global -/

theorem hookCalls_nil : hookCalls [] = [] := rfl

theorem hookCalls_append (t u : List Event) : hookCalls (t ++ u) = hookCalls t ++ hookCalls u := by
  simp [hookCalls]

theorem hookCalls_cons (e : Event) (t : List Event) :
    hookCalls (e :: t) = if e.isHook = true then e :: hookCalls t else hookCalls t := by
  simp only [hookCalls, List.filter_cons]

theorem prologue_clean (hi : INktHookInfo) (ci : INktHookCallInfoPlugin) (shim : Globals) :
    (prologue hi ci shim).Satisfies (Frame.Clean shim)
      (fun f => f.Clean shim ∧ f.name = hi.get_FunctionName.2) (fun _ => True) := by
  simp [prologue, Frame.log, Flow.satisfies_ite, Frame.Clean, hookCalls_cons, hookCalls_nil,
    Event.isHook]

theorem blockCreateDevice_clean (debugBuild : Bool) (ci : INktHookCallInfoPlugin)
    (f : Frame) (shim : Globals) (h : f.Clean shim) :
    (blockCreateDevice debugBuild ci f).Satisfies (Frame.Clean shim)
      (fun g => g.name = f.name ∧ g.Clean shim) (fun _ => True) := by
  obtain ⟨h1, h2⟩ := h
  simp [blockCreateDevice, preCallBranch, Frame.log, Flow.satisfies_ite, wcscmp_eq_zero_iff,
    Frame.Clean, hookCalls_append, hookCalls_cons, hookCalls_nil, Event.isHook, h1, h2]

theorem blockCreateDeviceAndSwapChain_clean (debugBuild : Bool) (ci : INktHookCallInfoPlugin)
    (f : Frame) (shim : Globals) (h : f.Clean shim) :
    (blockCreateDeviceAndSwapChain debugBuild ci f).Satisfies (Frame.Clean shim)
      (fun g => g.name = f.name ∧
        (g.Clean shim ∨ f.name = "D3D11.DLL!D3D11CreateDeviceAndSwapChain"))
      (fun _ => True) := by
  obtain ⟨h1, h2⟩ := h
  by_cases hn : f.name = "D3D11.DLL!D3D11CreateDeviceAndSwapChain"
  · simp [blockCreateDeviceAndSwapChain, preCallBranch, Frame.log, Flow.satisfies_ite,
      Flow.andThen_ite, wcscmp_eq_zero_iff,
      Frame.Clean, hookCalls_append, hookCalls_cons, hookCalls_nil, Event.isHook, h1, h2, hn]
  · rw [blockCreateDeviceAndSwapChain_skip debugBuild ci f hn]
    exact ⟨rfl, Or.inl ⟨h1, h2⟩⟩

theorem blockCreateDXGIFactory_clean (ci : INktHookCallInfoPlugin)
    (f : Frame) (shim : Globals) (h : f.Clean shim) :
    (blockCreateDXGIFactory ci f).Satisfies (Frame.Clean shim) (fun _ => True)
      (fun _ => True) := by
  obtain ⟨h1, h2⟩ := h
  simp [blockCreateDXGIFactory, Frame.log, Flow.satisfies_ite, wcscmp_eq_zero_iff,
    Frame.Clean, hookCalls_append, hookCalls_cons, hookCalls_nil, Event.isHook, h1, h2]

/-- A throw of `OnFunctionCall` leaves a clean frame. -/
theorem onFunctionCall_flow_clean (debugBuild : Bool) (hi : INktHookInfo)
    (ci : INktHookCallInfoPlugin) (shim : Globals) :
    ((((prologue hi ci shim).andThen (blockCreateDeviceAndSwapChain debugBuild ci)).andThen
      (blockCreateDevice debugBuild ci)).andThen (blockCreateDXGIFactory ci)).Satisfies
      (Frame.Clean shim) (fun _ => True) (fun _ => True) := by
  have h1 : ((prologue hi ci shim).andThen
      (blockCreateDeviceAndSwapChain debugBuild ci)).Satisfies (Frame.Clean shim)
      (fun g => g.Clean shim ∨ g.name = "D3D11.DLL!D3D11CreateDeviceAndSwapChain")
      (fun _ => True) :=
    (prologue_clean hi ci shim).andThen
      (fun f hf => (blockCreateDeviceAndSwapChain_clean debugBuild ci f shim hf.1).mono
        (fun _ h => h) (fun g hg => by
          rcases hg with ⟨hn, hc | hc⟩
          · exact Or.inl hc
          · exact Or.inr (hn.trans hc)) (fun _ h => h))
  have h2 : (((prologue hi ci shim).andThen
      (blockCreateDeviceAndSwapChain debugBuild ci)).andThen
      (blockCreateDevice debugBuild ci)).Satisfies (Frame.Clean shim)
      (fun g => g.Clean shim ∨ g.name = "D3D11.DLL!D3D11CreateDeviceAndSwapChain")
      (fun _ => True) :=
    h1.andThen (fun f hf => by
      rcases hf with hc | hn
      · exact (blockCreateDevice_clean debugBuild ci f shim hc).mono
          (fun _ h => h) (fun g hg => Or.inl hg.2) (fun _ h => h)
      · rw [blockCreateDevice_skip debugBuild ci f (by rw [hn]; decide)]
        exact Or.inr hn)
  exact h2.andThen (fun f hf => by
      rcases hf with hc | hn
      · exact blockCreateDXGIFactory_clean ci f shim hc
      · rw [blockCreateDXGIFactory_skip ci f (by rw [hn]; decide)]
        trivial)

/-! ## A failed accessor call with a tested status is the last call -/

theorem NoFail.nil (hi : INktHookInfo) (ci : INktHookCallInfoPlugin) : NoFail hi ci [] := by
  unfold NoFail
  simp

theorem NoFail.append_iff (hi : INktHookInfo) (ci : INktHookCallInfoPlugin) (t u : List Event) :
    NoFail hi ci (t ++ u) ↔ NoFail hi ci t ∧ NoFail hi ci u := by
  unfold NoFail
  simp only [List.mem_append]
  constructor
  · intro h
    exact ⟨fun e he => h e (Or.inl he), fun e he => h e (Or.inr he)⟩
  · rintro ⟨h1, h2⟩ e (he | he)
    · exact h1 e he
    · exact h2 e he

theorem NoFail.cons_iff (hi : INktHookInfo) (ci : INktHookCallInfoPlugin) (e : Event)
    (t : List Event) :
    NoFail hi ci (e :: t) ↔ failsChecked hi ci e = false ∧ NoFail hi ci t := by
  unfold NoFail
  simp

theorem StopsAtFailure.singleton (hi : INktHookInfo) (ci : INktHookCallInfoPlugin) (e : Event) :
    StopsAtFailure hi ci [e] := by
  unfold StopsAtFailure
  exact NoFail.nil hi ci

theorem StopsAtFailure.cons_cons_iff (hi : INktHookInfo) (ci : INktHookCallInfoPlugin)
    (a b : Event) (t : List Event) :
    StopsAtFailure hi ci (a :: b :: t) ↔
      failsChecked hi ci a = false ∧ StopsAtFailure hi ci (b :: t) := by
  unfold StopsAtFailure
  rw [List.dropLast_cons₂, NoFail.cons_iff]

theorem StopsAtFailure.append_cons_iff (hi : INktHookInfo) (ci : INktHookCallInfoPlugin)
    (t : List Event) (e : Event) (u : List Event) :
    StopsAtFailure hi ci (t ++ e :: u) ↔ NoFail hi ci t ∧ StopsAtFailure hi ci (e :: u) := by
  unfold StopsAtFailure
  rw [List.dropLast_append_of_ne_nil _ (by simp), NoFail.append_iff]

/-- A failed call in a trace without failed calls is a contradiction; in a
trace that stops at its failure it is the last call. -/
theorem StopsAtFailure.last (hi : INktHookInfo) (ci : INktHookCallInfoPlugin)
    (pre post : List Event) (e : Event) (h : StopsAtFailure hi ci (pre ++ e :: post))
    (he : failsChecked hi ci e = true) : post = [] := by
  cases post with
  | nil => rfl
  | cons b u =>
    rw [StopsAtFailure.append_cons_iff, StopsAtFailure.cons_cons_iff] at h
    rw [h.2.1] at he
    cases he

theorem NoFail.not_mem (hi : INktHookInfo) (ci : INktHookCallInfoPlugin)
    (pre post : List Event) (e : Event) (h : NoFail hi ci (pre ++ e :: post))
    (he : failsChecked hi ci e = true) : False := by
  rw [NoFail.append_iff, NoFail.cons_iff] at h
  rw [h.2.1] at he
  cases he

theorem prologue_stops (hi : INktHookInfo) (ci : INktHookCallInfoPlugin) (shim : Globals) :
    (prologue hi ci shim).Satisfies (fun f => StopsAtFailure hi ci f.trace)
      (fun f => NoFail hi ci f.trace) (fun f => NoFail hi ci f.trace) := by
  simp only [prologue, Frame.log, Flow.satisfies_ite, Flow.satisfies_thrown,
    Flow.satisfies_running, Flow.satisfies_returned, List.append_assoc, List.cons_append,
    List.nil_append]
  repeat' (first | intro _ | apply And.intro)
  all_goals simp_all [StopsAtFailure.singleton, StopsAtFailure.cons_cons_iff,
    StopsAtFailure.append_cons_iff, NoFail.nil, NoFail.cons_iff, NoFail.append_iff,
    failsChecked, checkedStatus]

theorem blockCreateDeviceAndSwapChain_stops (debugBuild : Bool) (hi : INktHookInfo)
    (ci : INktHookCallInfoPlugin) (f : Frame) (h : NoFail hi ci f.trace) :
    (blockCreateDeviceAndSwapChain debugBuild ci f).Satisfies
      (fun f => StopsAtFailure hi ci f.trace)
      (fun f => NoFail hi ci f.trace) (fun f => NoFail hi ci f.trace) := by
  simp only [blockCreateDeviceAndSwapChain, preCallBranch, Frame.log, Flow.satisfies_ite,
    Flow.andThen_ite, Flow.andThen_running, Flow.andThen_thrown, Flow.satisfies_thrown,
    Flow.satisfies_running, Flow.satisfies_returned, List.append_assoc, List.cons_append,
    List.nil_append]
  repeat' (first | intro _ | apply And.intro)
  all_goals simp_all [StopsAtFailure.singleton, StopsAtFailure.cons_cons_iff,
    StopsAtFailure.append_cons_iff, NoFail.nil, NoFail.cons_iff, NoFail.append_iff,
    failsChecked, checkedStatus]

theorem blockCreateDevice_stops (debugBuild : Bool) (hi : INktHookInfo)
    (ci : INktHookCallInfoPlugin) (f : Frame) (h : NoFail hi ci f.trace) :
    (blockCreateDevice debugBuild ci f).Satisfies
      (fun f => StopsAtFailure hi ci f.trace)
      (fun f => NoFail hi ci f.trace) (fun f => NoFail hi ci f.trace) := by
  simp only [blockCreateDevice, preCallBranch, Frame.log, Flow.satisfies_ite,
    Flow.andThen_ite, Flow.andThen_running, Flow.andThen_thrown, Flow.satisfies_thrown,
    Flow.satisfies_running, Flow.satisfies_returned, List.append_assoc, List.cons_append,
    List.nil_append]
  repeat' (first | intro _ | apply And.intro)
  all_goals simp_all [StopsAtFailure.singleton, StopsAtFailure.cons_cons_iff,
    StopsAtFailure.append_cons_iff, NoFail.nil, NoFail.cons_iff, NoFail.append_iff,
    failsChecked, checkedStatus]

theorem blockCreateDXGIFactory_stops (hi : INktHookInfo)
    (ci : INktHookCallInfoPlugin) (f : Frame) (h : NoFail hi ci f.trace) :
    (blockCreateDXGIFactory ci f).Satisfies
      (fun f => StopsAtFailure hi ci f.trace)
      (fun f => NoFail hi ci f.trace) (fun f => NoFail hi ci f.trace) := by
  simp only [blockCreateDXGIFactory, Frame.log, Flow.satisfies_ite,
    Flow.andThen_ite, Flow.andThen_running, Flow.andThen_thrown, Flow.satisfies_thrown,
    Flow.satisfies_running, Flow.satisfies_returned, List.append_assoc, List.cons_append,
    List.nil_append]
  repeat' (first | intro _ | apply And.intro)
  all_goals simp_all [StopsAtFailure.singleton, StopsAtFailure.cons_cons_iff,
    StopsAtFailure.append_cons_iff, NoFail.nil, NoFail.cons_iff, NoFail.append_iff,
    failsChecked, checkedStatus]

theorem onFunctionCall_flow_stops (debugBuild : Bool) (hi : INktHookInfo)
    (ci : INktHookCallInfoPlugin) (shim : Globals) :
    ((((prologue hi ci shim).andThen (blockCreateDeviceAndSwapChain debugBuild ci)).andThen
      (blockCreateDevice debugBuild ci)).andThen (blockCreateDXGIFactory ci)).Satisfies
      (fun f => StopsAtFailure hi ci f.trace)
      (fun f => NoFail hi ci f.trace) (fun f => NoFail hi ci f.trace) :=
  (((prologue_stops hi ci shim).andThen
    (fun f hf => blockCreateDeviceAndSwapChain_stops debugBuild hi ci f hf)).andThen
    (fun f hf => blockCreateDevice_stops debugBuild hi ci f hf)).andThen
    (fun f hf => blockCreateDXGIFactory_stops hi ci f hf)


/-! ## The globals are written by the `CreateDXGIFactory` block only -/

theorem prologue_keeps (hi : INktHookInfo) (ci : INktHookCallInfoPlugin) (shim : Globals) :
    (prologue hi ci shim).Satisfies (Frame.Keeps shim hi.get_FunctionName.2)
      (Frame.Keeps shim hi.get_FunctionName.2) (Frame.Keeps shim hi.get_FunctionName.2) := by
  simp [prologue, Frame.log, Flow.satisfies_ite, Frame.Keeps]

theorem blockCreateDeviceAndSwapChain_keeps (debugBuild : Bool) (ci : INktHookCallInfoPlugin)
    (f : Frame) (shim : Globals) (name : String) (h : f.Keeps shim name) :
    (blockCreateDeviceAndSwapChain debugBuild ci f).Satisfies (Frame.Keeps shim name)
      (Frame.Keeps shim name) (Frame.Keeps shim name) := by
  obtain ⟨h1, h2, h3, h4⟩ := h
  simp only [blockCreateDeviceAndSwapChain, preCallBranch, Frame.log, Flow.satisfies_ite,
    Flow.andThen_ite, Flow.andThen_running, Flow.andThen_thrown, Flow.satisfies_thrown,
    Flow.satisfies_running, Flow.satisfies_returned, Frame.Keeps]
  repeat' (first | intro _ | apply And.intro)
  all_goals first | assumption | exact h4 (by assumption)

theorem blockCreateDevice_keeps (debugBuild : Bool) (ci : INktHookCallInfoPlugin)
    (f : Frame) (shim : Globals) (name : String) (h : f.Keeps shim name) :
    (blockCreateDevice debugBuild ci f).Satisfies (Frame.Keeps shim name)
      (Frame.Keeps shim name) (Frame.Keeps shim name) := by
  obtain ⟨h1, h2, h3, h4⟩ := h
  simp only [blockCreateDevice, preCallBranch, Frame.log, Flow.satisfies_ite,
    Flow.satisfies_thrown, Flow.satisfies_running, Flow.satisfies_returned, Frame.Keeps]
  repeat' (first | intro _ | apply And.intro)
  all_goals first | assumption | exact h4 (by assumption)

theorem blockCreateDXGIFactory_keeps (ci : INktHookCallInfoPlugin)
    (f : Frame) (shim : Globals) (name : String) (h : f.Keeps shim name) :
    (blockCreateDXGIFactory ci f).Satisfies (Frame.Keeps shim name)
      (Frame.Keeps shim name) (Frame.Keeps shim name) := by
  by_cases hn : name = "DXGI.DLL!CreateDXGIFactory"
  · obtain ⟨h1, h2, h3, -⟩ := h
    simp only [blockCreateDXGIFactory, Frame.log, Flow.satisfies_ite,
      Flow.satisfies_thrown, Flow.satisfies_running, Flow.satisfies_returned, Frame.Keeps]
    repeat' (first | intro _ | apply And.intro)
    all_goals first | assumption | exact absurd hn (by assumption)
  · rw [blockCreateDXGIFactory_skip ci f (by rw [h.1]; exact hn)]
    exact h

theorem onFunctionCall_flow_keeps (debugBuild : Bool) (hi : INktHookInfo)
    (ci : INktHookCallInfoPlugin) (shim : Globals) :
    ((((prologue hi ci shim).andThen (blockCreateDeviceAndSwapChain debugBuild ci)).andThen
      (blockCreateDevice debugBuild ci)).andThen (blockCreateDXGIFactory ci)).Satisfies
      (Frame.Keeps shim hi.get_FunctionName.2) (Frame.Keeps shim hi.get_FunctionName.2)
      (Frame.Keeps shim hi.get_FunctionName.2) :=
  (((prologue_keeps hi ci shim).andThen
    (fun f hf => blockCreateDeviceAndSwapChain_keeps debugBuild ci f shim _ hf)).andThen
    (fun f hf => blockCreateDevice_keeps debugBuild ci f shim _ hf)).andThen
    (fun f hf => blockCreateDXGIFactory_keeps ci f shim _ hf)

/-- The result of a flow, by the way control left the function. -/
theorem Flow.result_cases {T R D : Frame → Prop} {fl : Flow} (h : fl.Satisfies T R D) :
    (∃ what f, fl.result = ⟨.raised what, f.trace, f.shim⟩ ∧ T f) ∨
      (∃ hr f, fl.result = ⟨.returned hr, f.trace, f.shim⟩ ∧ (R f ∨ D f)) := by
  cases fl with
  | running f => exact Or.inr ⟨S_OK, f, rfl, Or.inl h⟩
  | returned hr f => exact Or.inr ⟨hr, f, rfl, Or.inr h⟩
  | thrown what f => exact Or.inl ⟨what, f, rfl, h⟩

/-! ## The debug flag -/

theorem flags_or_debug (F : Nat) (h : F < 2 ^ 32) :
    (F % 4294967296 ||| 2) % 4294967296 = F ||| 2 := by
  have h2 : (2 : Nat) < 2 ^ 32 := by norm_num
  have h3 := Nat.or_lt_two_pow h h2
  norm_num at h h3
  rw [Nat.mod_eq_of_lt h, Nat.mod_eq_of_lt h3]

theorem testBit_or_debug (F i : Nat) :
    (F ||| 0x2).testBit i = (decide (i = 1) || F.testBit i) := by
  have h : (0x2 : Nat) = 2 ^ 1 := rfl
  rw [Nat.testBit_or, h, Nat.testBit_two_pow, Bool.or_comm]
  congr 1
  simp [eq_comm]

/-! ## The claims -/

/-- Claim C1: at a post-call observation of `D3D11.DLL!D3D11CreateDeviceAndSwapChain`
on which every accessor call succeeds, the code tests the answer of
`get_IsNullPointer` the wrong way round.  With slots 8 and 9 both reported
non-null and resolving to `16128` and `16144`, `HookPresent` is called once with
both arguments null and no slot is resolved; with slot 8 reported null and
slot 9 non-null, it is the null slot 8 that is resolved and passed as the swap
chain, the device argument being null, not `16144`. -/
theorem createDeviceAndSwapChain_null_test_inverted :
    (sampleCallInfo 0 (fun _ => false) 0).resolved 8 = 16128 ∧
    (sampleCallInfo 0 (fun _ => false) 0).resolved 9 = 16144 ∧
    OnFunctionCall false (sampleHookInfo "D3D11.DLL!D3D11CreateDeviceAndSwapChain" 7) 0
        (sampleCallInfo 0 (fun _ => false) 0) Globals.initial =
      ⟨.returned S_OK,
        [.get_FunctionName, .get_Address, .OutputDebugStringA, .Params, .get_Count 50,
          .get_IsPreCall, .GetAt 50 8, .get_IsNullPointer 108, .GetAt 50 9,
          .get_IsNullPointer 109, .HookPresent 0 0],
        Globals.initial⟩ ∧
    hookCalls (OnFunctionCall false
        (sampleHookInfo "D3D11.DLL!D3D11CreateDeviceAndSwapChain" 7) 0
        (sampleCallInfo 0 (fun i => i == 8) 0) Globals.initial).trace =
      [.HookPresent 0 16128] := by
  decide

/-- Claim C2: at an observation of `DXGI.DLL!CreateDXGIFactory`, in either phase and
whatever `get_IsNullPointer` answers, when the accessor calls succeed and slot 1
resolves to `B`, the callback returns `S_OK`, its hook-installer calls are
`HookCreateSwapChain B` then `HookCreateSwapChainForHwnd B` and no other, and it
calls neither `get_IsPreCall` nor `get_IsNullPointer`. -/
theorem createDXGIFactory_installs_factory_hooks (debugBuild : Bool) (hi : INktHookInfo)
    (dwChainIndex : Nat) (ci : INktHookCallInfoPlugin) (shim : Globals) (B : Ptr)
    (hName : FAILED hi.get_FunctionName.1 = false)
    (hname : hi.get_FunctionName.2 = "DXGI.DLL!CreateDXGIFactory")
    (hParams : FAILED ci.Params.1 = false)
    (hCount : FAILED (ci.get_Count ci.Params.2).1 = false)
    (hGetAt : FAILED (ci.GetAt ci.Params.2 1).1 = false)
    (hEvaluate : FAILED (ci.Evaluate (ci.slot 1)).1 = false)
    (hPointerVal : FAILED (ci.get_PointerVal (ci.Evaluate (ci.slot 1)).2).1 = false)
    (hB : ci.resolved 1 = B) :
    (OnFunctionCall debugBuild hi dwChainIndex ci shim).outcome = .returned S_OK ∧
    hookCalls (OnFunctionCall debugBuild hi dwChainIndex ci shim).trace =
      [.HookCreateSwapChain B, .HookCreateSwapChainForHwnd B] ∧
    Event.get_IsPreCall ∉ (OnFunctionCall debugBuild hi dwChainIndex ci shim).trace ∧
    ∀ p, Event.get_IsNullPointer p ∉ (OnFunctionCall debugBuild hi dwChainIndex ci shim).trace := by
  simp only [INktHookCallInfoPlugin.resolved, INktHookCallInfoPlugin.slot] at hEvaluate hPointerVal hB
  simp [OnFunctionCall, prologue, blockCreateDeviceAndSwapChain, blockCreateDevice,
    blockCreateDXGIFactory, Flow.result, Frame.log, wcscmp_eq_zero_iff,
    hname, hName, hParams, hCount, hGetAt, hEvaluate, hPointerVal, hB, hookCalls, Event.isHook]

/-- A pre-call observation of `DXGI.DLL!CreateDXGIFactory` in a debug build, with
every slot reported null and slot 1 resolving to `16016`. -/
theorem createDXGIFactory_installs_factory_hooks_witness :
    (OnFunctionCall true (sampleHookInfo "DXGI.DLL!CreateDXGIFactory" 7) 0
      (sampleCallInfo (-1) (fun _ => true) 0) Globals.initial).outcome = .returned S_OK ∧
    hookCalls (OnFunctionCall true (sampleHookInfo "DXGI.DLL!CreateDXGIFactory" 7) 0
      (sampleCallInfo (-1) (fun _ => true) 0) Globals.initial).trace =
      [.HookCreateSwapChain 16016, .HookCreateSwapChainForHwnd 16016] ∧
    Event.get_IsPreCall ∉ (OnFunctionCall true (sampleHookInfo "DXGI.DLL!CreateDXGIFactory" 7) 0
      (sampleCallInfo (-1) (fun _ => true) 0) Globals.initial).trace ∧
    ∀ p, Event.get_IsNullPointer p ∉
      (OnFunctionCall true (sampleHookInfo "DXGI.DLL!CreateDXGIFactory" 7) 0
        (sampleCallInfo (-1) (fun _ => true) 0) Globals.initial).trace :=
  createDXGIFactory_installs_factory_hooks true (sampleHookInfo "DXGI.DLL!CreateDXGIFactory" 7) 0
    (sampleCallInfo (-1) (fun _ => true) 0) Globals.initial 16016
    (by decide) (by decide) (by decide) (by decide) (by decide) (by decide) (by decide)
    (by decide)

/-- Claim C3: at a post-call observation of `DXGI.DLL!CreateDXGIFactory1` whose slot 1
resolves to `16016`, every accessor call succeeding, the code returns `S_OK`
after the prologue: it reads no slot, calls no hook installer and leaves the
factory handle as it was. -/
theorem createDXGIFactory1_not_dispatched :
    (sampleCallInfo 0 (fun _ => false) 0).resolved 1 = 16016 ∧
    OnFunctionCall false (sampleHookInfo "DXGI.DLL!CreateDXGIFactory1" 7) 0
        (sampleCallInfo 0 (fun _ => false) 0) Globals.initial =
      ⟨.returned S_OK,
        [.get_FunctionName, .get_Address, .OutputDebugStringA, .Params, .get_Count 50],
        Globals.initial⟩ := by
  decide

/-- Claim C4, as stated, fails: with `get_Address` answering `E_FAIL` at an observation
of `DXGI.DLL!CreateDXGIFactory`, the callback goes on, calls both factory hook
installers after the failed call and returns `S_OK`. -/
theorem failed_get_Address_is_ignored :
    FAILED (addressFailsHookInfo "DXGI.DLL!CreateDXGIFactory").get_Address.1 = true ∧
    OnFunctionCall false (addressFailsHookInfo "DXGI.DLL!CreateDXGIFactory") 0
        (sampleCallInfo 0 (fun _ => false) 0) Globals.initial =
      ⟨.returned S_OK,
        [.get_FunctionName, .get_Address, .OutputDebugStringA, .Params, .get_Count 50,
          .GetAt 50 1, .Evaluate 101, .get_PointerVal 1001, .HookCreateSwapChain 16016,
          .HookCreateSwapChainForHwnd 16016],
        ⟨0, 16016, 0⟩⟩ := by
  decide

/-- Claim C4, amended: whenever an accessor call of `OnFunctionCall` whose status the
code tests (`get_FunctionName`, `Params`, `get_Count`, `GetAt`,
`get_IsNullPointer`, `Evaluate`, `get_PointerVal`, `get_ULongVal`,
`put_ULongVal`) is answered with a failure status, that call is the last call
of the invocation, so that no hook installer is called after it, and the
callback raises.  The answer of `get_Address` has no part in the result. -/
theorem checked_accessor_failure_raises_at_once (debugBuild : Bool) (hi : INktHookInfo)
    (dwChainIndex : Nat) (ci : INktHookCallInfoPlugin) (shim : Globals)
    (pre post : List Event) (e : Event)
    (htrace : (OnFunctionCall debugBuild hi dwChainIndex ci shim).trace = pre ++ e :: post)
    (hfail : failsChecked hi ci e = true) :
    (post = [] ∧
      ∃ what, (OnFunctionCall debugBuild hi dwChainIndex ci shim).outcome = .raised what) ∧
    ∀ r, OnFunctionCall debugBuild { hi with get_Address := r } dwChainIndex ci shim =
      OnFunctionCall debugBuild hi dwChainIndex ci shim := by
  refine ⟨?_, fun _ => rfl⟩
  unfold OnFunctionCall at htrace ⊢
  rcases Flow.result_cases (onFunctionCall_flow_stops debugBuild hi ci shim) with
    ⟨what, f, hr, hT⟩ | ⟨hr', f, hr, hRD⟩
  · rw [hr] at htrace ⊢
    simp only at htrace
    rw [htrace] at hT
    exact ⟨StopsAtFailure.last hi ci pre post e hT hfail, what, rfl⟩
  · rw [hr] at htrace
    simp only at htrace
    rw [htrace, or_self] at hRD
    exact (NoFail.not_mem hi ci pre post e hRD hfail).elim

/-- The failure of `Evaluate` on slot 7 at a post-call observation of
`D3D11.DLL!D3D11CreateDevice`: `Evaluate` is the ninth and last call. -/
theorem checked_accessor_failure_raises_at_once_witness :
    (([] : List Event) = [] ∧ ∃ what, (OnFunctionCall false
      (sampleHookInfo "D3D11.DLL!D3D11CreateDevice" 7) 0 evaluateFailsCallInfo
      Globals.initial).outcome = .raised what) ∧
    ∀ r, OnFunctionCall false
        { sampleHookInfo "D3D11.DLL!D3D11CreateDevice" 7 with get_Address := r } 0
        evaluateFailsCallInfo Globals.initial =
      OnFunctionCall false (sampleHookInfo "D3D11.DLL!D3D11CreateDevice" 7) 0
        evaluateFailsCallInfo Globals.initial :=
  checked_accessor_failure_raises_at_once false
    (sampleHookInfo "D3D11.DLL!D3D11CreateDevice" 7) 0 evaluateFailsCallInfo Globals.initial
    [.get_FunctionName, .get_Address, .OutputDebugStringA, .Params, .get_Count 50,
      .get_IsPreCall, .GetAt 50 7, .get_IsNullPointer 107] [] (.Evaluate 107)
    (by decide) (by decide)

/-- Claim C5: at a post-call observation of `D3D11.DLL!D3D11CreateDevice` on which every
accessor call succeeds and the code resolves slot 7 to `16112`, the resolved
address goes to the local `pDevice` only: the global `pDevice` is `0` after the
call as before it.  No hook installer is called. -/
theorem createDevice_leaves_global_pDevice :
    (sampleCallInfo 0 (fun _ => true) 0).resolved 7 = 16112 ∧
    OnFunctionCall false (sampleHookInfo "D3D11.DLL!D3D11CreateDevice" 7) 0
        (sampleCallInfo 0 (fun _ => true) 0) Globals.initial =
      ⟨.returned S_OK,
        [.get_FunctionName, .get_Address, .OutputDebugStringA, .Params, .get_Count 50,
          .get_IsPreCall, .GetAt 50 7, .get_IsNullPointer 107, .Evaluate 107,
          .get_PointerVal 1007],
        ⟨0, 0, 0⟩⟩ := by
  decide

/-- Claim C6, as stated, fails: a pre-call observation of `DXGI.DLL!CreateDXGIFactory`
writes the factory handle, here from `0` to `16016`. -/
theorem createDXGIFactory_preCall_captures_factory :
    (sampleCallInfo (-1) (fun _ => false) 0).get_IsPreCall.2 ≠ 0 ∧
    Globals.initial.pDXGIFactory = 0 ∧
    (OnFunctionCall false (sampleHookInfo "DXGI.DLL!CreateDXGIFactory" 7) 0
      (sampleCallInfo (-1) (fun _ => false) 0) Globals.initial).shim.pDXGIFactory = 16016 := by
  decide

/-- Claim C6, amended: an invocation of `OnFunctionCall` in the pre-call phase leaves
the captured device handle as it was, whatever the function name and the
accessor, and leaves the captured factory handle as it was for every function
name but `DXGI.DLL!CreateDXGIFactory`. -/
theorem preCall_keeps_captured_handles (debugBuild : Bool) (hi : INktHookInfo)
    (dwChainIndex : Nat) (ci : INktHookCallInfoPlugin) (shim : Globals)
    (hPre : ci.get_IsPreCall.2 ≠ 0) :
    (OnFunctionCall debugBuild hi dwChainIndex ci shim).shim.pDevice = shim.pDevice ∧
    (hi.get_FunctionName.2 ≠ "DXGI.DLL!CreateDXGIFactory" →
      (OnFunctionCall debugBuild hi dwChainIndex ci shim).shim.pDXGIFactory =
        shim.pDXGIFactory) := by
  unfold OnFunctionCall
  rcases Flow.result_cases (onFunctionCall_flow_keeps debugBuild hi ci shim) with
    ⟨what, f, hr, hK⟩ | ⟨hr', f, hr, hK | hK⟩
  all_goals
    rw [hr]
    exact ⟨hK.2.1, fun hn => by rw [show f.shim = shim from hK.2.2.2 hn]⟩

/-- A pre-call observation of `D3D11.DLL!D3D11CreateDevice` in a debug build,
from globals `3`, `4`, `5`. -/
theorem preCall_keeps_captured_handles_witness :
    (OnFunctionCall true (sampleHookInfo "D3D11.DLL!D3D11CreateDevice" 7) 0
      (sampleCallInfo (-1) (fun _ => false) 5) ⟨3, 4, 5⟩).shim.pDevice = (3 : Ptr) ∧
    ("D3D11.DLL!D3D11CreateDevice" ≠ "DXGI.DLL!CreateDXGIFactory" →
      (OnFunctionCall true (sampleHookInfo "D3D11.DLL!D3D11CreateDevice" 7) 0
        (sampleCallInfo (-1) (fun _ => false) 5) ⟨3, 4, 5⟩).shim.pDXGIFactory = (4 : Ptr)) :=
  preCall_keeps_captured_handles true (sampleHookInfo "D3D11.DLL!D3D11CreateDevice" 7) 0
    (sampleCallInfo (-1) (fun _ => false) 5) ⟨3, 4, 5⟩ (by decide)

/-- Claim C7: for a function name that is none of the three recognized names, when
`get_FunctionName`, `Params` and `get_Count` succeed, `OnFunctionCall` returns
`S_OK`, none of its calls reads or writes a parameter slot, none is a hook
installer, and the globals are as they were. -/
theorem unrecognized_name_no_action (debugBuild : Bool) (hi : INktHookInfo)
    (dwChainIndex : Nat) (ci : INktHookCallInfoPlugin) (shim : Globals)
    (h1 : hi.get_FunctionName.2 ≠ "D3D11.DLL!D3D11CreateDeviceAndSwapChain")
    (h2 : hi.get_FunctionName.2 ≠ "D3D11.DLL!D3D11CreateDevice")
    (h3 : hi.get_FunctionName.2 ≠ "DXGI.DLL!CreateDXGIFactory")
    (hName : FAILED hi.get_FunctionName.1 = false)
    (hParams : FAILED ci.Params.1 = false)
    (hCount : FAILED (ci.get_Count ci.Params.2).1 = false) :
    (OnFunctionCall debugBuild hi dwChainIndex ci shim).outcome = .returned S_OK ∧
    (∀ e ∈ (OnFunctionCall debugBuild hi dwChainIndex ci shim).trace,
      e.isSlotAccess = false ∧ e.isHook = false) ∧
    (OnFunctionCall debugBuild hi dwChainIndex ci shim).shim = shim := by
  simp [OnFunctionCall, prologue, blockCreateDeviceAndSwapChain, blockCreateDevice,
    blockCreateDXGIFactory, Flow.result, Frame.log, wcscmp_eq_zero_iff,
    h1, h2, h3, hName, hParams, hCount, Event.isHook, Event.isSlotAccess]

/-- An observation of `KERNEL32.DLL!LoadLibraryW`. -/
theorem unrecognized_name_no_action_witness :
    (OnFunctionCall false (sampleHookInfo "KERNEL32.DLL!LoadLibraryW" 7) 0
      (sampleCallInfo 0 (fun _ => false) 0) Globals.initial).outcome = .returned S_OK ∧
    (∀ e ∈ (OnFunctionCall false (sampleHookInfo "KERNEL32.DLL!LoadLibraryW" 7) 0
      (sampleCallInfo 0 (fun _ => false) 0) Globals.initial).trace,
      e.isSlotAccess = false ∧ e.isHook = false) ∧
    (OnFunctionCall false (sampleHookInfo "KERNEL32.DLL!LoadLibraryW" 7) 0
      (sampleCallInfo 0 (fun _ => false) 0) Globals.initial).shim = Globals.initial :=
  unrecognized_name_no_action false (sampleHookInfo "KERNEL32.DLL!LoadLibraryW" 7) 0
    (sampleCallInfo 0 (fun _ => false) 0) Globals.initial
    (by decide) (by decide) (by decide) (by decide) (by decide) (by decide)

/-- Claim C8: in a debug build, at a pre-call observation of `D3D11.DLL!D3D11CreateDevice`
or of `D3D11.DLL!D3D11CreateDeviceAndSwapChain` whose slot 3 holds the 32-bit
value `F` and whose accessor calls succeed, the one value written back, to
slot 3, is `F ||| 0x2`, which is `F` with bit 1 set and every other bit as in
`F`; no hook installer is called, the globals are as they were and the callback
returns `S_OK`. -/
theorem preCall_debug_build_sets_debug_flag (hi : INktHookInfo) (dwChainIndex : Nat)
    (ci : INktHookCallInfoPlugin) (shim : Globals) (F : Nat)
    (hName : FAILED hi.get_FunctionName.1 = false)
    (hname : hi.get_FunctionName.2 = "D3D11.DLL!D3D11CreateDevice" ∨
      hi.get_FunctionName.2 = "D3D11.DLL!D3D11CreateDeviceAndSwapChain")
    (hParams : FAILED ci.Params.1 = false)
    (hCount : FAILED (ci.get_Count ci.Params.2).1 = false)
    (hPre : ci.get_IsPreCall.2 ≠ 0)
    (hGetAt : FAILED (ci.GetAt ci.Params.2 3).1 = false)
    (hGet : FAILED (ci.get_ULongVal (ci.slot 3)).1 = false)
    (hF : (ci.get_ULongVal (ci.slot 3)).2 = F) (hF32 : F < 2 ^ 32)
    (hPut : FAILED (ci.put_ULongVal (ci.slot 3) (F ||| 0x2)) = false) :
    (OnFunctionCall true hi dwChainIndex ci shim).outcome = .returned S_OK ∧
    writeBacks (OnFunctionCall true hi dwChainIndex ci shim).trace =
      [(ci.slot 3, F ||| D3D11_CREATE_DEVICE_DEBUG)] ∧
    D3D11_CREATE_DEVICE_DEBUG = 0x2 ∧
    (∀ i, (F ||| D3D11_CREATE_DEVICE_DEBUG).testBit i = (decide (i = 1) || F.testBit i)) ∧
    hookCalls (OnFunctionCall true hi dwChainIndex ci shim).trace = [] ∧
    (OnFunctionCall true hi dwChainIndex ci shim).shim = shim := by
  have hb := testBit_or_debug F
  have hm := flags_or_debug F hF32
  simp only [INktHookCallInfoPlugin.slot] at hGet hF hPut ⊢
  rcases hname with hname | hname
  all_goals
    simp [OnFunctionCall, prologue, blockCreateDeviceAndSwapChain, blockCreateDevice,
      blockCreateDXGIFactory, preCallBranch, Flow.result, Frame.log, wcscmp_eq_zero_iff,
      hname, hName, hParams, hCount, hPre, hGetAt, hGet, hF, hm, hPut, hookCalls, writeBacks,
      Event.isHook, D3D11_CREATE_DEVICE_DEBUG]
    intro i
    rw [← Nat.testBit_or]
    exact hb i

/-- A pre-call observation of `D3D11.DLL!D3D11CreateDevice` with the flags
`0x821`: `0x823` is written back. -/
theorem preCall_debug_build_sets_debug_flag_witness :
    (OnFunctionCall true (sampleHookInfo "D3D11.DLL!D3D11CreateDevice" 7) 0
      (sampleCallInfo (-1) (fun _ => false) 0x821) Globals.initial).outcome = .returned S_OK ∧
    writeBacks (OnFunctionCall true (sampleHookInfo "D3D11.DLL!D3D11CreateDevice" 7) 0
      (sampleCallInfo (-1) (fun _ => false) 0x821) Globals.initial).trace =
      [((sampleCallInfo (-1) (fun _ => false) 0x821).slot 3, 0x821 ||| D3D11_CREATE_DEVICE_DEBUG)] ∧
    D3D11_CREATE_DEVICE_DEBUG = 0x2 ∧
    (∀ i, (0x821 ||| D3D11_CREATE_DEVICE_DEBUG).testBit i =
      (decide (i = 1) || (0x821 : Nat).testBit i)) ∧
    hookCalls (OnFunctionCall true (sampleHookInfo "D3D11.DLL!D3D11CreateDevice" 7) 0
      (sampleCallInfo (-1) (fun _ => false) 0x821) Globals.initial).trace = [] ∧
    (OnFunctionCall true (sampleHookInfo "D3D11.DLL!D3D11CreateDevice" 7) 0
      (sampleCallInfo (-1) (fun _ => false) 0x821) Globals.initial).shim = Globals.initial :=
  preCall_debug_build_sets_debug_flag (sampleHookInfo "D3D11.DLL!D3D11CreateDevice" 7) 0
    (sampleCallInfo (-1) (fun _ => false) 0x821) Globals.initial 0x821
    (by decide) (Or.inl (by decide)) (by decide) (by decide) (by decide) (by decide)
    (by decide) (by decide) (by decide) (by decide)

/-- Claim C9: when the accessor calls `OnHookAdded` tests succeed and report the
process id `P`, `OnHookAdded` returns `S_OK` and leaves `gGamePID = P` with the
two captured handles as they were; a second invocation with a hook info
reporting the same `P` returns `S_OK` too and leaves the globals as the first
invocation left them. -/
theorem onHookAdded_records_process_id (hi hi2 : INktHookInfo) (dwChainIndex dwChainIndex2 : Nat)
    (szParametersW szParametersW2 : String) (shim : Globals) (P : Int)
    (h : hi.reports P) (h2 : hi2.reports P) :
    (OnHookAdded hi dwChainIndex szParametersW shim).outcome = .returned S_OK ∧
    (OnHookAdded hi dwChainIndex szParametersW shim).shim.gGamePID = P ∧
    (OnHookAdded hi dwChainIndex szParametersW shim).shim.pDevice = shim.pDevice ∧
    (OnHookAdded hi dwChainIndex szParametersW shim).shim.pDXGIFactory = shim.pDXGIFactory ∧
    (OnHookAdded hi2 dwChainIndex2 szParametersW2
      (OnHookAdded hi dwChainIndex szParametersW shim).shim).outcome = .returned S_OK ∧
    (OnHookAdded hi2 dwChainIndex2 szParametersW2
      (OnHookAdded hi dwChainIndex szParametersW shim).shim).shim =
      (OnHookAdded hi dwChainIndex szParametersW shim).shim := by
  obtain ⟨a1, a2, a3, a4⟩ := h
  obtain ⟨b1, b2, b3, b4⟩ := h2
  simp [OnHookAdded, a1, a2, a3, a4, b1, b2, b3, b4]

/-- Two hooks added in the process `4242`, from globals `3`, `4`, `5`. -/
theorem onHookAdded_records_process_id_witness :
    (OnHookAdded (sampleHookInfo "DXGI.DLL!CreateDXGIFactory" 4242) 0 "" ⟨3, 4, 5⟩).outcome =
      .returned S_OK ∧
    (OnHookAdded (sampleHookInfo "DXGI.DLL!CreateDXGIFactory" 4242) 0 "" ⟨3, 4, 5⟩).shim.gGamePID =
      4242 ∧
    (OnHookAdded (sampleHookInfo "DXGI.DLL!CreateDXGIFactory" 4242) 0 "" ⟨3, 4, 5⟩).shim.pDevice =
      (3 : Ptr) ∧
    (OnHookAdded (sampleHookInfo "DXGI.DLL!CreateDXGIFactory" 4242) 0 ""
      ⟨3, 4, 5⟩).shim.pDXGIFactory = (4 : Ptr) ∧
    (OnHookAdded (sampleHookInfo "D3D11.DLL!D3D11CreateDevice" 4242) 1 ""
      (OnHookAdded (sampleHookInfo "DXGI.DLL!CreateDXGIFactory" 4242) 0 "" ⟨3, 4, 5⟩).shim).outcome =
      .returned S_OK ∧
    (OnHookAdded (sampleHookInfo "D3D11.DLL!D3D11CreateDevice" 4242) 1 ""
      (OnHookAdded (sampleHookInfo "DXGI.DLL!CreateDXGIFactory" 4242) 0 "" ⟨3, 4, 5⟩).shim).shim =
      (OnHookAdded (sampleHookInfo "DXGI.DLL!CreateDXGIFactory" 4242) 0 "" ⟨3, 4, 5⟩).shim :=
  onHookAdded_records_process_id (sampleHookInfo "DXGI.DLL!CreateDXGIFactory" 4242)
    (sampleHookInfo "D3D11.DLL!D3D11CreateDevice" 4242) 0 1 "" "" ⟨3, 4, 5⟩ 4242
    ⟨by decide, by decide, by decide, by decide⟩ ⟨by decide, by decide, by decide, by decide⟩

/-- Claim C10: whenever `OnFunctionCall` raises, the invocation has called no hook
installer and the captured factory and device handles are as they were before
it. -/
theorem onFunctionCall_raise_is_atomic (debugBuild : Bool) (hi : INktHookInfo)
    (dwChainIndex : Nat) (ci : INktHookCallInfoPlugin) (shim : Globals) (what : String)
    (h : (OnFunctionCall debugBuild hi dwChainIndex ci shim).outcome = .raised what) :
    hookCalls (OnFunctionCall debugBuild hi dwChainIndex ci shim).trace = [] ∧
    (OnFunctionCall debugBuild hi dwChainIndex ci shim).shim.pDXGIFactory = shim.pDXGIFactory ∧
    (OnFunctionCall debugBuild hi dwChainIndex ci shim).shim.pDevice = shim.pDevice := by
  unfold OnFunctionCall at h ⊢
  rcases Flow.result_cases (onFunctionCall_flow_clean debugBuild hi ci shim) with
    ⟨what', f, hr, hT⟩ | ⟨hr', f, hr, -⟩
  · rw [hr]
    exact ⟨hT.1, by rw [show f.shim = shim from hT.2], by rw [show f.shim = shim from hT.2]⟩
  · rw [hr] at h
    cases h

/-- The failure of `Evaluate` on slot 8 at a post-call observation of
`D3D11.DLL!D3D11CreateDeviceAndSwapChain`, from globals `3`, `4`, `5`. -/
theorem onFunctionCall_raise_is_atomic_witness :
    hookCalls (OnFunctionCall false (sampleHookInfo "D3D11.DLL!D3D11CreateDeviceAndSwapChain" 7)
      0 evaluateFailsCallInfo ⟨3, 4, 5⟩).trace = [] ∧
    (OnFunctionCall false (sampleHookInfo "D3D11.DLL!D3D11CreateDeviceAndSwapChain" 7)
      0 evaluateFailsCallInfo ⟨3, 4, 5⟩).shim.pDXGIFactory = (4 : Ptr) ∧
    (OnFunctionCall false (sampleHookInfo "D3D11.DLL!D3D11CreateDeviceAndSwapChain" 7)
      0 evaluateFailsCallInfo ⟨3, 4, 5⟩).shim.pDevice = (3 : Ptr) :=
  onFunctionCall_raise_is_atomic false
    (sampleHookInfo "D3D11.DLL!D3D11CreateDeviceAndSwapChain" 7) 0 evaluateFailsCallInfo
    ⟨3, 4, 5⟩ "Failed Nektra param->Evaluate" (by decide)

end DeviarePlugin
